import Mathlib

/-!
Verification of the hotel room-lifecycle / task-timer core of the HK
repository.  The definitions below are a shallow embedding of the
TypeScript source: the Zustand store (`appStore`), the `useRooms` hook
(`changeRoomStatus`, `startTask`, `pauseTask`, `finishTask`), the
Supabase repository helpers they call, and the `statusWorkflow`
transition table from `Dashboard3D.tsx`.  Remote (Supabase) calls are
modelled by an explicit environment recording whether each call
succeeds and what the shared clock reads; thrown errors are modelled by
the corresponding success flag being `false`, which routes execution
into the embedded `catch` branch exactly as in the source.
-/

/-- The seven-value `RoomStatus` union from the type definitions. -/
inductive RoomStatus
  | Dirty
  | CheckoutInspected
  | Cleaning
  | VacantClean
  | VacantCleanInspected
  | Occupied
  | OutOfOrder
deriving DecidableEq

/-- The TypeScript string literal for each status. -/
def RoomStatus.str : RoomStatus → String
  | .Dirty => "Dirty"
  | .CheckoutInspected => "Check-out Inspected"
  | .Cleaning => "Cleaning"
  | .VacantClean => "Vacant Clean"
  | .VacantCleanInspected => "Vacant Clean Inspected"
  | .Occupied => "Occupied"
  | .OutOfOrder => "Out of Order"

/-- `WorkLog['task_type']`: the four task kinds. -/
inductive TaskType
  | Cleaning
  | Inspection
  | Repair
  | Maintenance
deriving DecidableEq

/-- The TypeScript string literal for each task type. -/
def TaskType.str : TaskType → String
  | .Cleaning => "Cleaning"
  | .Inspection => "Inspection"
  | .Repair => "Repair"
  | .Maintenance => "Maintenance"

/-- How JavaScript template literals print `timer.taskType`, which may be null. -/
def optTaskTypeStr : Option TaskType → String
  | none => "null"
  | some t => t.str

/-- The four staff roles. -/
inductive UserRole
  | Housekeeping
  | Supervisor
  | Engineering
  | Manager
deriving DecidableEq

/-- Notification severity (`'info' | 'success' | 'warning' | 'error'`). -/
inductive NotifType
  | info
  | success
  | warning
  | error
deriving DecidableEq

/-- The fields of a `Room` that the workflow core reads or writes.
Timestamps are modelled as integers (epoch milliseconds). -/
structure Room where
  id : String
  room_number : String
  status : RoomStatus
  assigned_to : Option String := none
  last_updated : Int := 0
deriving DecidableEq

/-- A staff profile as read by the workflow (`currentUser`). -/
structure Profile where
  id : String
  full_name : String
  role : UserRole
deriving DecidableEq

/-- A notification as produced by `addNotification` (the generated id,
timestamp and read flag are not observed by any claim and are omitted). -/
structure Notification where
  title : String
  message : String
  type : NotifType
deriving DecidableEq

/-- An `audit_logs` row as inserted by `createAuditLog`. -/
structure AuditLog where
  room_number : String
  changed_by : String
  changer_name : String
  changer_role : UserRole
  from_status : RoomStatus
  to_status : RoomStatus
  timestamp : Int
  notes : Option String
deriving DecidableEq

/-- The `TimerState` record of the Zustand store. -/
structure TimerState where
  isRunning : Bool
  startTime : Option Int
  elapsedTime : Int
  currentLogId : Option String
  roomNumber : Option String
  taskType : Option TaskType
deriving DecidableEq

/-- A `work_logs` row, with the fields the embedded calls touch. -/
structure WorkLogRow where
  id : String
  room_number : String
  staff_id : String
  task_type : TaskType
  status : String
  total_duration : Int
deriving DecidableEq

/-- The slice of the Zustand `AppState` the workflow operations use. -/
structure AppState where
  currentUser : Option Profile
  rooms : List Room
  timer : TimerState
  notifications : List Notification
deriving DecidableEq

/-- The remote (Supabase) tables touched by the workflow. -/
structure RemoteState where
  rooms : List Room
  auditLogs : List AuditLog
  workLogs : List WorkLogRow
deriving DecidableEq

/-- Environment for one workflow call: the wall clock and the outcome of
each awaited repository call (`false`/`none` meaning the call throws,
with `errMsg` as the thrown error's message). -/
structure Env where
  now : Int
  updateRoomStatusOk : Bool
  createAuditLogOk : Bool
  createWorkLogResult : Option String
  pauseWorkLogOk : Bool
  finishWorkLogOk : Bool
  errMsg : String
deriving DecidableEq

/-! ## Store primitives (appStore) -/

/-- `updateRoom(roomId, updates)`: merge a patch into the matching room. -/
def updateRoomWith (rooms : List Room) (roomId : String) (patch : Room → Room) : List Room :=
  rooms.map (fun r => if r.id = roomId then patch r else r)

/-- `addNotification`: prepend and keep the most recent 50. -/
def addNotification (st : AppState) (n : Notification) : AppState :=
  { st with notifications := (n :: st.notifications).take 50 }

/-- `startTimer(logId, roomNumber, taskType)` from the store. -/
def startTimer (now : Int) (logId roomNumber : String) (taskType : TaskType) : TimerState :=
  { isRunning := true
    startTime := some now
    elapsedTime := 0
    currentLogId := some logId
    roomNumber := some roomNumber
    taskType := some taskType }

/-- `pauseTimer()` from the store: clears the running flag and the start
time; `elapsedTime` is left exactly as it was. -/
def pauseTimer (t : TimerState) : TimerState :=
  { t with isRunning := false, startTime := none }

/-- `resumeTimer()` from the store. -/
def resumeTimer (now : Int) (t : TimerState) : TimerState :=
  { t with isRunning := true, startTime := some now }

/-- `stopTimer()` from the store: keeps `elapsedTime`, clears the rest. -/
def stopTimer (t : TimerState) : TimerState :=
  { t with isRunning := false, startTime := none, currentLogId := none
           roomNumber := none, taskType := none }

/-- `resetTimer()` from the store. -/
def resetTimer : TimerState :=
  { isRunning := false
    startTime := none
    elapsedTime := 0
    currentLogId := none
    roomNumber := none
    taskType := none }

/-- `tick()` from the store.  The guard `!isRunning || !startTime`
no-ops when the timer is not running or the start time is null (or the
JavaScript-falsy value 0).  Otherwise the elapsed wall time, floored to
whole seconds, is folded into `elapsedTime` and the start is re-based. -/
def tick (now : Int) (t : TimerState) : TimerState :=
  if t.isRunning = false then t
  else
    match t.startTime with
    | none => t
    | some s =>
        if s = 0 then t
        else
          { t with elapsedTime := t.elapsedTime + Int.fdiv (now - s) 1000
                   startTime := some now }

/-- A sequence of `tick` calls at the given wall-clock instants. -/
def tickSeq (ts : List Int) (t : TimerState) : TimerState :=
  ts.foldl (fun s n => tick n s) t

/-! ## Transition table (Dashboard3D.tsx) -/

/-- The `statusWorkflow` record, as the string-keyed object literal it
is in the source. -/
def statusWorkflowEntries : List (String × List RoomStatus) :=
  [("Dirty", [.CheckoutInspected, .Cleaning, .OutOfOrder]),
   ("Check-out Inspected", [.Cleaning, .OutOfOrder]),
   ("Cleaning", [.VacantClean, .Dirty]),
   ("Vacant Clean", [.VacantCleanInspected, .Dirty, .Occupied]),
   ("Vacant Clean Inspected", [.Occupied, .Dirty]),
   ("Occupied", [.Dirty, .OutOfOrder]),
   ("Out of Order", [.Dirty])]

/-- `statusWorkflow[room.status] || []` — the lookup as the modal
performs it, falling back to the empty list for unknown keys. -/
def availableStatuses (key : String) : List RoomStatus :=
  (statusWorkflowEntries.lookup key).getD []

/-- `legalNextStates(current)`: indexing the record with a
`RoomStatus`-typed key, which is how every in-source consumer uses it. -/
def statusWorkflow (s : RoomStatus) : List RoomStatus :=
  availableStatuses s.str

/-- Modelled from the spec: the adjacency table of spec section 4.1,
transcribed row by row from the spec's own words, for comparison with
the source's `statusWorkflow`. -/
def specTransitionTable : RoomStatus → List RoomStatus
  | .Dirty => [.CheckoutInspected, .Cleaning, .OutOfOrder]
  | .CheckoutInspected => [.Cleaning, .OutOfOrder]
  | .Cleaning => [.VacantClean, .Dirty]
  | .VacantClean => [.VacantCleanInspected, .Dirty, .Occupied]
  | .VacantCleanInspected => [.Occupied, .Dirty]
  | .Occupied => [.Dirty, .OutOfOrder]
  | .OutOfOrder => [.Dirty]

/-! ## Repository helpers (supabase.ts) -/

/-- `updateRoomStatus(roomId, status, assignedTo?)`: patches status and
`last_updated` on the matching row; `assigned_to` is written only when
a (truthy) `assignedTo` argument is supplied. -/
def updateRoomStatusRepo (now : Int) (roomId : String) (status : RoomStatus)
    (assignedTo : Option String) (rooms : List Room) : List Room :=
  rooms.map (fun r =>
    if r.id = roomId then
      { r with status := status
               last_updated := now
               assigned_to :=
                 match assignedTo with
                 | some a => if a = "" then r.assigned_to else some a
                 | none => r.assigned_to }
    else r)

/-- `pauseWorkLog(logId, elapsedSeconds)`: marks the row paused and
records the elapsed duration. -/
def pauseWorkLogRepo (logId : String) (elapsedSeconds : Int)
    (logs : List WorkLogRow) : List WorkLogRow :=
  logs.map (fun w =>
    if w.id = logId then { w with status := "Paused", total_duration := elapsedSeconds }
    else w)

/-- `finishWorkLog(logId, totalSeconds)`: marks the row completed and
records the total duration. -/
def finishWorkLogRepo (logId : String) (totalSeconds : Int)
    (logs : List WorkLogRow) : List WorkLogRow :=
  logs.map (fun w =>
    if w.id = logId then { w with status := "Completed", total_duration := totalSeconds }
    else w)

/-! ## formatDuration (useRooms) -/

/-- `padStart(2, '0')` on a decimal rendering. -/
def jsPad2 (n : Int) : String :=
  let s := toString n
  if s.length < 2 then "0" ++ s else s

/-- `formatDuration(seconds)`: HH:MM:SS.  JavaScript `%` is truncated
remainder, `Math.floor` on an exact integer quotient is floor division. -/
def formatDuration (seconds : Int) : String :=
  let hours := Int.fdiv seconds 3600
  let minutes := Int.fdiv (Int.tmod seconds 3600) 60
  let secs := Int.tmod seconds 60
  jsPad2 hours ++ ":" ++ jsPad2 minutes ++ ":" ++ jsPad2 secs

/-! ## changeRoomStatus (useRooms) -/

/-- `changeRoomStatus(room, newStatus, notes?)`.  With no logged-in user
it only emits an error notification.  Otherwise, inside the `try`:
the repository status patch is awaited first, then the audit insert,
then the local store update and the success notification; any throw
lands in the `catch`, which emits an error notification and performs no
further work (in particular, no rollback of calls already committed). -/
def changeRoomStatus (env : Env) (st : AppState) (rem : RemoteState)
    (room : Room) (newStatus : RoomStatus) (notes : Option String) :
    AppState × RemoteState :=
  match st.currentUser with
  | none =>
      (addNotification st
        { title := "Authentication required"
          message := "Please log in to change room status"
          type := .error }, rem)
  | some user =>
      let oldStatus := room.status
      if env.updateRoomStatusOk = false then
        (addNotification st
          { title := "Error updating status", message := env.errMsg, type := .error }, rem)
      else
        let rem1 : RemoteState :=
          { rem with rooms := updateRoomStatusRepo env.now room.id newStatus none rem.rooms }
        if env.createAuditLogOk = false then
          (addNotification st
            { title := "Error updating status", message := env.errMsg, type := .error }, rem1)
        else
          let rem2 : RemoteState :=
            { rem1 with auditLogs := rem1.auditLogs ++
                [{ room_number := room.room_number
                   changed_by := user.id
                   changer_name := user.full_name
                   changer_role := user.role
                   from_status := oldStatus
                   to_status := newStatus
                   timestamp := env.now
                   notes := notes }] }
          let patched :=
            updateRoomWith st.rooms room.id
              (fun r => { r with status := newStatus, last_updated := env.now })
          let st1 : AppState := { st with rooms := patched }
          let st2 := addNotification st1
            { title := "Status updated"
              message := "Room " ++ room.room_number ++ " changed from " ++
                         oldStatus.str ++ " to " ++ newStatus.str
              type := .success }
          (st2, rem2)

/-! ## startTask (useRooms) -/

/-- Result of `startTask` as observable at the call site: the silent
early return when nobody is logged in, the `catch` branch, or the
returned work-log id. -/
inductive StartResult
  | notLoggedIn
  | failed
  | started (logId : String)
deriving DecidableEq

/-- The status implied by a task type in `startTask`'s switch. -/
def impliedStartStatus (taskType : TaskType) (current : RoomStatus) : RoomStatus :=
  match taskType with
  | .Cleaning => .Cleaning
  | .Repair => .OutOfOrder
  | .Maintenance => .OutOfOrder
  | .Inspection => current

/-- `startTask(room, taskType)`.  After the silent `!currentUser` guard
it creates a work log (a throw lands in the `catch`), starts the timer
unconditionally, derives an implied status and calls
`changeRoomStatus` when it differs from the room's current status
(whose own errors are caught internally and do not abort `startTask`),
then emits the success notification and returns the log id. -/
def startTask (env : Env) (st : AppState) (rem : RemoteState)
    (room : Room) (taskType : TaskType) :
    AppState × RemoteState × StartResult :=
  match st.currentUser with
  | none => (st, rem, .notLoggedIn)
  | some user =>
      match env.createWorkLogResult with
      | none =>
          (addNotification st
            { title := "Error starting task", message := env.errMsg, type := .error },
           rem, .failed)
      | some logId =>
          let rem1 : RemoteState :=
            { rem with workLogs := rem.workLogs ++
                [{ id := logId
                   room_number := room.room_number
                   staff_id := user.id
                   task_type := taskType
                   status := "In Progress"
                   total_duration := 0 }] }
          let st1 : AppState :=
            { st with timer := startTimer env.now logId room.room_number taskType }
          let newStatus := impliedStartStatus taskType room.status
          let next : AppState × RemoteState :=
            if newStatus = room.status then (st1, rem1)
            else changeRoomStatus env st1 rem1 room newStatus
                   (some (taskType.str ++ " started"))
          let st2 := addNotification next.1
            { title := "Task started"
              message := taskType.str ++ " started for room " ++ room.room_number
              type := .success }
          (st2, next.2, .started logId)

/-! ## pauseTask (useRooms) -/

/-- Result of `pauseTask` / `finishTask` style calls: the silent guard
return, the `catch` branch, or normal completion. -/
inductive TaskCallResult
  | noActive
  | failed
  | completed
deriving DecidableEq

/-- `pauseTask()`.  Guarded only by `!timer.currentLogId`; persists the
currently accumulated `elapsedTime` (not any in-flight delta), pauses
the store timer and emits an info notification. -/
def pauseTask (env : Env) (st : AppState) (rem : RemoteState) :
    AppState × RemoteState × TaskCallResult :=
  match st.timer.currentLogId with
  | none => (st, rem, .noActive)
  | some logId =>
      if env.pauseWorkLogOk = false then
        (addNotification st
          { title := "Error pausing task", message := env.errMsg, type := .error },
         rem, .failed)
      else
        let rem1 : RemoteState :=
          { rem with workLogs := pauseWorkLogRepo logId st.timer.elapsedTime rem.workLogs }
        let st1 : AppState := { st with timer := pauseTimer st.timer }
        let st2 := addNotification st1
          { title := "Task paused"
            message := "Task paused at " ++ formatDuration st.timer.elapsedTime
            type := .info }
        (st2, rem1, .completed)

/-! ## finishTask (useRooms) -/

/-- The next-status resolution switch inside `finishTask`: the explicit
argument wins; otherwise the status is derived from the timer's task
type, and with no task type the room keeps its current status. -/
def resolveNextStatus (explicit : Option RoomStatus) (taskType : Option TaskType)
    (current : RoomStatus) : RoomStatus :=
  match explicit with
  | some s => s
  | none =>
      match taskType with
      | some .Cleaning => .VacantClean
      | some .Inspection => .VacantCleanInspected
      | some .Repair => .Dirty
      | some .Maintenance => .Dirty
      | none => current

/-- `finishTask(room, nextStatus?)`.  Guarded by
`!timer.currentLogId || !currentUser` (silent return).  Inside the
`try`: finish the work log (a throw lands in the `catch`), resolve the
final status, call `changeRoomStatus` when it differs from the room's
current status (its errors are caught internally and never abort the
finish), emit the completion notification, then `stopTimer()` followed
by `resetTimer()`. -/
def finishTask (env : Env) (st : AppState) (rem : RemoteState)
    (room : Room) (nextStatus : Option RoomStatus) :
    AppState × RemoteState × TaskCallResult :=
  match st.timer.currentLogId with
  | none => (st, rem, .noActive)
  | some logId =>
    match st.currentUser with
    | none => (st, rem, .noActive)
    | some _user =>
      if env.finishWorkLogOk = false then
        (addNotification st
          { title := "Error completing task", message := env.errMsg, type := .error },
         rem, .failed)
      else
        let rem1 : RemoteState :=
          { rem with workLogs := finishWorkLogRepo logId st.timer.elapsedTime rem.workLogs }
        let finalStatus := resolveNextStatus nextStatus st.timer.taskType room.status
        let next : AppState × RemoteState :=
          if finalStatus = room.status then (st, rem1)
          else changeRoomStatus env st rem1 room finalStatus
                 (some (optTaskTypeStr st.timer.taskType ++ " completed"))
        let st2 := addNotification next.1
          { title := "Task completed"
            message := optTaskTypeStr st.timer.taskType ++ " completed for room " ++
                       room.room_number ++ " in " ++ formatDuration st.timer.elapsedTime
            type := .success }
        let st3 : AppState := { st2 with timer := stopTimer st2.timer }
        let st4 : AppState := { st3 with timer := resetTimer }
        (st4, next.2, .completed)

/-! ## Observers -/

/-- The stored status of the room with the given id in a room list. -/
def roomStatusIn (rooms : List Room) (roomId : String) : Option RoomStatus :=
  (rooms.find? (fun r => r.id == roomId)).map Room.status

/-- The stored `assigned_to` values, in list order. -/
def assignedToList (rooms : List Room) : List (Option String) :=
  rooms.map Room.assigned_to

/-! ## Shared helper lemmas -/

/-- `changeRoomStatus` never touches the session timer. -/
theorem changeRoomStatus_timer (env : Env) (st : AppState) (rem : RemoteState)
    (room : Room) (newStatus : RoomStatus) (notes : Option String) :
    (changeRoomStatus env st rem room newStatus notes).1.timer = st.timer := by
  cases h : st.currentUser with
  | none => simp [changeRoomStatus, h, addNotification]
  | some u =>
      by_cases h1 : env.updateRoomStatusOk = false
      · simp [changeRoomStatus, h, h1, addNotification]
      · by_cases h2 : env.createAuditLogOk = false <;>
          simp [changeRoomStatus, h, h1, h2, addNotification]

/-- `changeRoomStatus` never touches `currentUser`. -/
theorem changeRoomStatus_currentUser (env : Env) (st : AppState) (rem : RemoteState)
    (room : Room) (newStatus : RoomStatus) (notes : Option String) :
    (changeRoomStatus env st rem room newStatus notes).1.currentUser = st.currentUser := by
  cases h : st.currentUser with
  | none => simp [changeRoomStatus, h, addNotification]
  | some u =>
      by_cases h1 : env.updateRoomStatusOk = false
      · simp [changeRoomStatus, h, h1, addNotification]
      · by_cases h2 : env.createAuditLogOk = false <;>
          simp [changeRoomStatus, h, h1, h2, addNotification]

/-- Finding a room after an id-preserving patch of the matching row. -/
theorem find_after_patch (rooms : List Room) (i : String) (f : Room → Room)
    (hf : ∀ r, (f r).id = r.id) :
    (rooms.map (fun r => if r.id = i then f r else r)).find? (fun r => r.id == i)
      = (rooms.find? (fun r => r.id == i)).map f := by
  induction rooms with
  | nil => rfl
  | cons r rs ih =>
      by_cases h : r.id = i
      · have hb : (r.id == i) = true := by simp [h]
        have hb2 : ((f r).id == i) = true := by simp [hf, h]
        simp [List.find?, hb, hb2, h]
      · have hb : (r.id == i) = false := by simp [h]
        simp [List.find?, hb, h, ih]

/-- An id-preserving patch of one row leaves every `assigned_to` intact
when the patch does not write that field. -/
theorem assignedTo_after_patch (rooms : List Room) (i : String) (f : Room → Room)
    (hf : ∀ r, (f r).assigned_to = r.assigned_to) :
    assignedToList (rooms.map (fun r => if r.id = i then f r else r))
      = assignedToList rooms := by
  induction rooms with
  | nil => rfl
  | cons r rs ih =>
      simp [assignedToList] at ih ⊢
      by_cases h : r.id = i <;> simp [h, hf] <;> exact ih

/-! ## Concrete fixtures -/

/-- A supervisor profile used in concrete runs. -/
def alice : Profile := { id := "u1", full_name := "Alice", role := .Supervisor }

/-- Room B203, Out of Order — the room of the spec's own scenario. -/
def roomB203 : Room :=
  { id := "r1", room_number := "B203", status := .OutOfOrder, assigned_to := some "1" }

/-- An environment in which every repository call succeeds. -/
def envOK : Env :=
  { now := 5000
    updateRoomStatusOk := true
    createAuditLogOk := true
    createWorkLogResult := some "L2"
    pauseWorkLogOk := true
    finishWorkLogOk := true
    errMsg := "boom" }

/-- The idle timer (equal to `resetTimer`). -/
def idleTimer : TimerState := resetTimer

/-- A timer running a Cleaning task on log `L1`. -/
def runningTimer : TimerState :=
  { isRunning := true
    startTime := some 3
    elapsedTime := 5
    currentLogId := some "L1"
    roomNumber := some "B203"
    taskType := some .Cleaning }

/-- App state: Alice logged in, one room (B203), given timer. -/
def stWith (t : TimerState) : AppState :=
  { currentUser := some alice
    rooms := [roomB203]
    timer := t
    notifications := [] }

/-- Remote mirror of the one-room world. -/
def remOne : RemoteState :=
  { rooms := [roomB203], auditLogs := [], workLogs := [] }

/-! ## Claim C4 -/

/-- C4: the source's `statusWorkflow` table agrees row for row with the
adjacency table transcribed from spec section 4.1; no status's allowed
set contains that status itself; and looking up a key that is not one
of the seven table keys yields the empty set (the lookup fails closed). -/
theorem statusWorkflow_matches_spec :
    (∀ s : RoomStatus, statusWorkflow s = specTransitionTable s) ∧
    (∀ s : RoomStatus, s ∉ statusWorkflow s) ∧
    (∀ key : String, key ∉ statusWorkflowEntries.map Prod.fst →
      availableStatuses key = []) := by
  refine ⟨fun s => by cases s <;> rfl, fun s => by cases s <;> decide, ?_⟩
  intro key h
  simp [statusWorkflowEntries] at h
  obtain ⟨h1, h2, h3, h4, h5, h6, h7⟩ := h
  have b1 : (key == "Dirty") = false := by simp [h1]
  have b2 : (key == "Check-out Inspected") = false := by simp [h2]
  have b3 : (key == "Cleaning") = false := by simp [h3]
  have b4 : (key == "Vacant Clean") = false := by simp [h4]
  have b5 : (key == "Vacant Clean Inspected") = false := by simp [h5]
  have b6 : (key == "Occupied") = false := by simp [h6]
  have b7 : (key == "Out of Order") = false := by simp [h7]
  simp [availableStatuses, statusWorkflowEntries, List.lookup,
        b1, b2, b3, b4, b5, b6, b7]

/-- Witness for C4: a key outside the seven statuses yields the empty set. -/
theorem statusWorkflow_matches_spec_witness :
    availableStatuses "Lobby" = [] :=
  statusWorkflow_matches_spec.2.2 "Lobby" (by decide)

/-! ## Claim C10 -/

/-- C10: with nobody logged in, `changeRoomStatus` performs no repository
write and no audit append (the remote state is untouched), leaves every
room and the timer unchanged, and its only effect is one error-typed
notification asking the caller to log in. -/
theorem changeRoomStatus_requires_login (env : Env) (st : AppState) (rem : RemoteState)
    (room : Room) (newStatus : RoomStatus) (notes : Option String)
    (h : st.currentUser = none) :
    (changeRoomStatus env st rem room newStatus notes).2 = rem ∧
    (changeRoomStatus env st rem room newStatus notes).1.rooms = st.rooms ∧
    (changeRoomStatus env st rem room newStatus notes).1.timer = st.timer ∧
    (changeRoomStatus env st rem room newStatus notes).1.notifications =
      ({ title := "Authentication required"
         message := "Please log in to change room status"
         type := .error } :: st.notifications).take 50 := by
  simp [changeRoomStatus, h, addNotification]

/-- A logged-out app state over the one-room world. -/
def stLoggedOut : AppState :=
  { currentUser := none, rooms := [roomB203], timer := idleTimer, notifications := [] }

/-- Witness for C10 at a concrete logged-out state. -/
theorem changeRoomStatus_requires_login_witness :
    (changeRoomStatus envOK stLoggedOut remOne roomB203 .Occupied none).2 = remOne ∧
    (changeRoomStatus envOK stLoggedOut remOne roomB203 .Occupied none).1.rooms =
      stLoggedOut.rooms ∧
    (changeRoomStatus envOK stLoggedOut remOne roomB203 .Occupied none).1.timer =
      stLoggedOut.timer ∧
    (changeRoomStatus envOK stLoggedOut remOne roomB203 .Occupied none).1.notifications =
      ({ title := "Authentication required"
         message := "Please log in to change room status"
         type := .error } :: stLoggedOut.notifications).take 50 :=
  changeRoomStatus_requires_login envOK stLoggedOut remOne roomB203 .Occupied none rfl

/-! ## Claim C8 -/

/-- C8: across any sequence of `tick` calls the timer state — hence the
reported elapsed time — is bit-identical when the timer is not running
(Paused or Idle); and while Running, provided the wall clock never runs
backwards (the tick instants are non-decreasing and start no earlier
than the captured start time), the elapsed time is monotonically
non-decreasing. -/
theorem tick_elapsed_props (t : TimerState) (ts : List Int) :
    (t.isRunning = false → tickSeq ts t = t) ∧
    (∀ s : Int, t.isRunning = true → t.startTime = some s →
      List.Sorted (· ≤ ·) (s :: ts) →
      t.elapsedTime ≤ (tickSeq ts t).elapsedTime) := by
  constructor
  · intro h
    induction ts with
    | nil => rfl
    | cons n ns ih =>
        have hstep : tick n t = t := by simp [tick, h]
        calc tickSeq (n :: ns) t = tickSeq ns (tick n t) := rfl
          _ = tickSeq ns t := by rw [hstep]
          _ = t := ih
  · intro s hrun hstart hsort
    induction ts generalizing t s with
    | nil => exact le_refl _
    | cons n ns ih =>
        obtain ⟨hall, hsort1⟩ := List.sorted_cons.mp hsort
        have hsn : s ≤ n := hall n (by simp)
        by_cases hz : s = 0
        · have hstep : tick n t = t := by simp [tick, hrun, hstart, hz]
          have hsort2 : List.Sorted (· ≤ ·) (s :: ns) := by
            rw [List.sorted_cons]
            exact ⟨fun b hb => hall b (List.mem_cons_of_mem _ hb),
                   (List.sorted_cons.mp hsort1).2⟩
          have := ih t s hrun hstart hsort2
          calc t.elapsedTime ≤ (tickSeq ns t).elapsedTime := this
            _ = (tickSeq ns (tick n t)).elapsedTime := by rw [hstep]
            _ = (tickSeq (n :: ns) t).elapsedTime := rfl
        · have hstep : tick n t =
              { t with elapsedTime := t.elapsedTime + Int.fdiv (n - s) 1000
                       startTime := some n } := by
            simp [tick, hrun, hstart, hz]
          have hd : 0 ≤ Int.fdiv (n - s) 1000 :=
            Int.fdiv_nonneg (by omega) (by norm_num)
          have hrun2 : (tick n t).isRunning = true := by simp [hstep, hrun]
          have hstart2 : (tick n t).startTime = some n := by simp [hstep]
          have step := ih (tick n t) n hrun2 hstart2 hsort1
          calc t.elapsedTime ≤ t.elapsedTime + Int.fdiv (n - s) 1000 := by omega
            _ = (tick n t).elapsedTime := by simp [hstep]
            _ ≤ (tickSeq ns (tick n t)).elapsedTime := step
            _ = (tickSeq (n :: ns) t).elapsedTime := rfl

/-- Witness for C8: a frozen idle timer and a running timer ticked at
two increasing instants. -/
theorem tick_elapsed_props_witness :
    tickSeq [1000, 2500] idleTimer = idleTimer ∧
    runningTimer.elapsedTime ≤ (tickSeq [1000, 2500] runningTimer).elapsedTime :=
  ⟨(tick_elapsed_props idleTimer [1000, 2500]).1 rfl,
   (tick_elapsed_props runningTimer [1000, 2500]).2 3 rfl rfl (by decide)⟩

/-! ## More shared lemmas -/

/-- `changeRoomStatus` never touches the work-log table. -/
theorem changeRoomStatus_workLogs (env : Env) (st : AppState) (rem : RemoteState)
    (room : Room) (newStatus : RoomStatus) (notes : Option String) :
    (changeRoomStatus env st rem room newStatus notes).2.workLogs = rem.workLogs := by
  cases h : st.currentUser with
  | none => simp [changeRoomStatus, h]
  | some u =>
      by_cases h1 : env.updateRoomStatusOk = false
      · simp [changeRoomStatus, h, h1]
      · by_cases h2 : env.createAuditLogOk = false <;>
          simp [changeRoomStatus, h, h1, h2]

/-- The stored status after patching the status of the matching row. -/
theorem roomStatusIn_patch (rooms : List Room) (i : String) (ns : RoomStatus) (n : Int) :
    roomStatusIn
      (rooms.map (fun r => if r.id = i then { r with status := ns, last_updated := n } else r)) i
      = (roomStatusIn rooms i).map (fun _ => ns) := by
  unfold roomStatusIn
  rw [find_after_patch rooms i
        (fun r => { r with status := ns, last_updated := n }) (fun r => rfl)]
  cases rooms.find? (fun r => r.id == i) <;> rfl

/-! ## Claim C1 -/

/-- Counterexample to C1: room B203 is Out of Order and Occupied is not in
the legal set for Out of Order, yet `changeRoomStatus` succeeds — the
room's stored status becomes Occupied both remotely and locally and an
audit entry is appended; no IllegalTransition failure exists. -/
theorem changeRoomStatus_illegal_transition_commits :
    (RoomStatus.Occupied ∉ statusWorkflow .OutOfOrder) ∧
    roomStatusIn
      (changeRoomStatus envOK (stWith idleTimer) remOne roomB203 .Occupied none).2.rooms "r1"
      = some .Occupied ∧
    roomStatusIn
      (changeRoomStatus envOK (stWith idleTimer) remOne roomB203 .Occupied none).1.rooms "r1"
      = some .Occupied ∧
    (changeRoomStatus envOK (stWith idleTimer) remOne roomB203 .Occupied none).2.auditLogs.length
      = 1 ∧
    (changeRoomStatus envOK (stWith idleTimer) remOne roomB203 .Occupied none).1.notifications.length
      = 1 := by
  exact ⟨by decide, by rfl, by rfl, by rfl, by rfl⟩

/-- C1 amended: `changeRoomStatus` consults no transition table.  For
every (from, to) pair — legal or not — given a logged-in user and
successful repository calls, it commits the status change remotely and
locally and appends exactly one audit entry recording the pair; the
table only limits which targets the UI offers (`availableStatuses` of a
status's key is exactly its `statusWorkflow` row). -/
theorem changeRoomStatus_no_legality_check (env : Env) (st : AppState) (rem : RemoteState)
    (room : Room) (newStatus : RoomStatus) (notes : Option String) (user : Profile)
    (hUser : st.currentUser = some user)
    (hU : env.updateRoomStatusOk = true) (hA : env.createAuditLogOk = true) :
    roomStatusIn (changeRoomStatus env st rem room newStatus notes).1.rooms room.id
      = (roomStatusIn st.rooms room.id).map (fun _ => newStatus) ∧
    roomStatusIn (changeRoomStatus env st rem room newStatus notes).2.rooms room.id
      = (roomStatusIn rem.rooms room.id).map (fun _ => newStatus) ∧
    (changeRoomStatus env st rem room newStatus notes).2.auditLogs
      = rem.auditLogs ++
        [{ room_number := room.room_number
           changed_by := user.id
           changer_name := user.full_name
           changer_role := user.role
           from_status := room.status
           to_status := newStatus
           timestamp := env.now
           notes := notes }] ∧
    (∀ s : RoomStatus, availableStatuses s.str = statusWorkflow s) := by
  have hU' : ¬env.updateRoomStatusOk = false := by simp [hU]
  have hA' : ¬env.createAuditLogOk = false := by simp [hA]
  refine ⟨?_, ?_, ?_, fun s => rfl⟩
  · simp [changeRoomStatus, hUser, hU', hA', addNotification, updateRoomWith,
          roomStatusIn_patch]
  · simp [changeRoomStatus, hUser, hU', hA', updateRoomStatusRepo,
          roomStatusIn_patch]
  · simp [changeRoomStatus, hUser, hU', hA']

/-- Witness for C1 (amended) at the concrete illegal pair
Out of Order to Occupied. -/
theorem changeRoomStatus_no_legality_check_witness :
    roomStatusIn
      (changeRoomStatus envOK (stWith idleTimer) remOne roomB203 .Occupied none).1.rooms
      roomB203.id
      = (roomStatusIn (stWith idleTimer).rooms roomB203.id).map (fun _ => .Occupied) ∧
    roomStatusIn
      (changeRoomStatus envOK (stWith idleTimer) remOne roomB203 .Occupied none).2.rooms
      roomB203.id
      = (roomStatusIn remOne.rooms roomB203.id).map (fun _ => .Occupied) ∧
    (changeRoomStatus envOK (stWith idleTimer) remOne roomB203 .Occupied none).2.auditLogs
      = remOne.auditLogs ++
        [{ room_number := roomB203.room_number
           changed_by := alice.id
           changer_name := alice.full_name
           changer_role := alice.role
           from_status := roomB203.status
           to_status := .Occupied
           timestamp := envOK.now
           notes := none }] ∧
    (∀ s : RoomStatus, availableStatuses s.str = statusWorkflow s) :=
  changeRoomStatus_no_legality_check envOK (stWith idleTimer) remOne roomB203
    .Occupied none alice rfl rfl rfl

/-! ## Claim C3 -/

/-- C3: when the repository status patch has succeeded and the audit
append then fails, the committed status change is not rolled back — the
remote room keeps the new status while no audit entry is appended — and
the failure is surfaced as an error notification rather than swallowed
(the local registry copy is only patched after a successful append, so
it still holds the old status in this run). -/
theorem changeRoomStatus_audit_failure_keeps_commit (env : Env) (st : AppState)
    (rem : RemoteState) (room : Room) (newStatus : RoomStatus) (notes : Option String)
    (user : Profile) (hUser : st.currentUser = some user)
    (hU : env.updateRoomStatusOk = true) (hA : env.createAuditLogOk = false) :
    roomStatusIn (changeRoomStatus env st rem room newStatus notes).2.rooms room.id
      = (roomStatusIn rem.rooms room.id).map (fun _ => newStatus) ∧
    (changeRoomStatus env st rem room newStatus notes).2.auditLogs = rem.auditLogs ∧
    (changeRoomStatus env st rem room newStatus notes).1.rooms = st.rooms ∧
    (changeRoomStatus env st rem room newStatus notes).1.notifications =
      ({ title := "Error updating status", message := env.errMsg, type := .error }
        :: st.notifications).take 50 := by
  have hU' : ¬env.updateRoomStatusOk = false := by simp [hU]
  refine ⟨?_, ?_, ?_, ?_⟩ <;>
    simp [changeRoomStatus, hUser, hU', hA, addNotification,
          updateRoomStatusRepo, roomStatusIn_patch]

/-- Witness for C3: audit append fails after the status patch commits. -/
def envAuditFail : Env := { envOK with createAuditLogOk := false }

/-- Witness for C3 at a concrete run. -/
theorem changeRoomStatus_audit_failure_keeps_commit_witness :
    roomStatusIn
      (changeRoomStatus envAuditFail (stWith idleTimer) remOne roomB203 .Dirty none).2.rooms
      roomB203.id
      = (roomStatusIn remOne.rooms roomB203.id).map (fun _ => .Dirty) ∧
    (changeRoomStatus envAuditFail (stWith idleTimer) remOne roomB203 .Dirty none).2.auditLogs
      = remOne.auditLogs ∧
    (changeRoomStatus envAuditFail (stWith idleTimer) remOne roomB203 .Dirty none).1.rooms
      = (stWith idleTimer).rooms ∧
    (changeRoomStatus envAuditFail (stWith idleTimer) remOne roomB203 .Dirty none).1.notifications
      = ({ title := "Error updating status", message := envAuditFail.errMsg, type := .error }
          :: (stWith idleTimer).notifications).take 50 :=
  changeRoomStatus_audit_failure_keeps_commit envAuditFail (stWith idleTimer) remOne
    roomB203 .Dirty none alice rfl rfl rfl

/-! ## Further shared lemmas -/

/-- On the fully successful path, `changeRoomStatus` rewrites the local
registry copy of the target room to the new status. -/
theorem changeRoomStatus_local_status (env : Env) (st : AppState) (rem : RemoteState)
    (room : Room) (newStatus : RoomStatus) (notes : Option String) (user : Profile)
    (hUser : st.currentUser = some user)
    (hU : ¬env.updateRoomStatusOk = false) (hA : ¬env.createAuditLogOk = false) :
    roomStatusIn (changeRoomStatus env st rem room newStatus notes).1.rooms room.id
      = (roomStatusIn st.rooms room.id).map (fun _ => newStatus) := by
  simp [changeRoomStatus, hUser, hU, hA, addNotification, updateRoomWith,
        roomStatusIn_patch]

/-- `changeRoomStatus` never writes `assigned_to` in the local registry. -/
theorem changeRoomStatus_assignedTo_local (env : Env) (st : AppState) (rem : RemoteState)
    (room : Room) (newStatus : RoomStatus) (notes : Option String) :
    assignedToList (changeRoomStatus env st rem room newStatus notes).1.rooms
      = assignedToList st.rooms := by
  cases h : st.currentUser with
  | none => simp [changeRoomStatus, h, addNotification]
  | some u =>
      by_cases h1 : env.updateRoomStatusOk = false
      · simp [changeRoomStatus, h, h1, addNotification]
      · by_cases h2 : env.createAuditLogOk = false
        · simp [changeRoomStatus, h, h1, h2, addNotification]
        · simp [changeRoomStatus, h, h1, h2, addNotification, updateRoomWith]
          exact assignedTo_after_patch _ _ _ (fun r => rfl)

/-- `changeRoomStatus` never writes `assigned_to` in the repository
(the hook passes no `assignedTo` argument). -/
theorem changeRoomStatus_assignedTo_remote (env : Env) (st : AppState) (rem : RemoteState)
    (room : Room) (newStatus : RoomStatus) (notes : Option String) :
    assignedToList (changeRoomStatus env st rem room newStatus notes).2.rooms
      = assignedToList rem.rooms := by
  cases h : st.currentUser with
  | none => simp [changeRoomStatus, h, addNotification]
  | some u =>
      by_cases h1 : env.updateRoomStatusOk = false
      · simp [changeRoomStatus, h, h1, addNotification]
      · by_cases h2 : env.createAuditLogOk = false <;>
          · simp [changeRoomStatus, h, h1, h2, addNotification, updateRoomStatusRepo]
            exact assignedTo_after_patch _ _ _ (fun r => rfl)

/-! ## Claim C2 -/

/-- Counterexample to C2: the timer is already running task L1, yet
`startTask` succeeds — it returns a fresh log id, inserts a new work-log
row, and overwrites the timer; no TaskAlreadyActive failure exists and
the timer does not stay unchanged. -/
theorem startTask_while_active_starts :
    (stWith runningTimer).timer.isRunning = true ∧
    (stWith runningTimer).timer.currentLogId = some "L1" ∧
    (startTask envOK (stWith runningTimer) remOne roomB203 .Repair).2.2
      = .started "L2" ∧
    (startTask envOK (stWith runningTimer) remOne roomB203 .Repair).2.1.workLogs.length
      = 1 ∧
    (startTask envOK (stWith runningTimer) remOne roomB203 .Repair).1.timer
      ≠ (stWith runningTimer).timer := by
  exact ⟨rfl, rfl, rfl, rfl, by decide⟩

/-- C2 amended: `startTask` performs no idle check.  For every task type
and every timer state — including a running one — given a logged-in user
and a successful work-log insert, it returns the new log id, appends one
work-log row, and overwrites the session timer with a fresh running
timer for the new task (orphaning any task that was outstanding). -/
theorem startTask_no_idle_guard (env : Env) (st : AppState) (rem : RemoteState)
    (room : Room) (taskType : TaskType) (user : Profile) (logId : String)
    (hUser : st.currentUser = some user)
    (hLog : env.createWorkLogResult = some logId) :
    (startTask env st rem room taskType).2.2 = .started logId ∧
    (startTask env st rem room taskType).2.1.workLogs
      = rem.workLogs ++
        [{ id := logId
           room_number := room.room_number
           staff_id := user.id
           task_type := taskType
           status := "In Progress"
           total_duration := 0 }] ∧
    (startTask env st rem room taskType).1.timer
      = startTimer env.now logId room.room_number taskType := by
  by_cases h : impliedStartStatus taskType room.status = room.status <;>
    simp [startTask, hUser, hLog, h, addNotification,
          changeRoomStatus_workLogs, changeRoomStatus_timer]

/-- Witness for C2 (amended) with the timer running task L1. -/
theorem startTask_no_idle_guard_witness :
    (startTask envOK (stWith runningTimer) remOne roomB203 .Repair).2.2
      = .started "L2" ∧
    (startTask envOK (stWith runningTimer) remOne roomB203 .Repair).2.1.workLogs
      = remOne.workLogs ++
        [{ id := "L2"
           room_number := roomB203.room_number
           staff_id := alice.id
           task_type := .Repair
           status := "In Progress"
           total_duration := 0 }] ∧
    (startTask envOK (stWith runningTimer) remOne roomB203 .Repair).1.timer
      = startTimer envOK.now "L2" roomB203.room_number .Repair :=
  startTask_no_idle_guard envOK (stWith runningTimer) remOne roomB203 .Repair
    alice "L2" rfl rfl

/-! ## Claim C5 -/

/-- C5: `finishTask` resolves the next status as the explicit argument
when one is supplied, and otherwise derives it from the active task's
type — Cleaning yields Vacant Clean, Inspection yields Vacant Clean
Inspected, Repair and Maintenance yield Dirty, and with no task type
the room's current status is kept; on a successful run the room's local
record is committed to exactly that resolved status. -/
theorem finishTask_resolves_next_status (env : Env) (st : AppState) (rem : RemoteState)
    (room : Room) (nextStatus : Option RoomStatus) (logId : String) (user : Profile)
    (hLog : st.timer.currentLogId = some logId) (hUser : st.currentUser = some user)
    (hOk : env.finishWorkLogOk = true)
    (hU : env.updateRoomStatusOk = true) (hA : env.createAuditLogOk = true)
    (hStored : roomStatusIn st.rooms room.id = some room.status) :
    (∀ (s cur : RoomStatus) (tt : Option TaskType),
      resolveNextStatus (some s) tt cur = s) ∧
    (∀ cur, resolveNextStatus none (some .Cleaning) cur = .VacantClean) ∧
    (∀ cur, resolveNextStatus none (some .Inspection) cur = .VacantCleanInspected) ∧
    (∀ cur, resolveNextStatus none (some .Repair) cur = .Dirty) ∧
    (∀ cur, resolveNextStatus none (some .Maintenance) cur = .Dirty) ∧
    (∀ cur, resolveNextStatus none none cur = cur) ∧
    roomStatusIn (finishTask env st rem room nextStatus).1.rooms room.id
      = some (resolveNextStatus nextStatus st.timer.taskType room.status) := by
  have hOk' : ¬env.finishWorkLogOk = false := by simp [hOk]
  have hU' : ¬env.updateRoomStatusOk = false := by simp [hU]
  have hA' : ¬env.createAuditLogOk = false := by simp [hA]
  refine ⟨fun s cur tt => rfl, fun cur => rfl, fun cur => rfl, fun cur => rfl,
          fun cur => rfl, fun cur => rfl, ?_⟩
  by_cases h : resolveNextStatus nextStatus st.timer.taskType room.status = room.status
  · simp [finishTask, hLog, hUser, hOk', h, addNotification]
    exact hStored
  · simp [finishTask, hLog, hUser, hOk', h, addNotification]
    rw [changeRoomStatus_local_status env st _ room _ _ user hUser hU' hA', hStored]
    rfl

/-- Witness for C5: finishing the running Cleaning task commits
Vacant Clean to the room's local record. -/
theorem finishTask_resolves_next_status_witness :
    (∀ (s cur : RoomStatus) (tt : Option TaskType),
      resolveNextStatus (some s) tt cur = s) ∧
    (∀ cur, resolveNextStatus none (some .Cleaning) cur = .VacantClean) ∧
    (∀ cur, resolveNextStatus none (some .Inspection) cur = .VacantCleanInspected) ∧
    (∀ cur, resolveNextStatus none (some .Repair) cur = .Dirty) ∧
    (∀ cur, resolveNextStatus none (some .Maintenance) cur = .Dirty) ∧
    (∀ cur, resolveNextStatus none none cur = cur) ∧
    roomStatusIn (finishTask envOK (stWith runningTimer) remOne roomB203 none).1.rooms
      roomB203.id
      = some (resolveNextStatus none (stWith runningTimer).timer.taskType
                roomB203.status) :=
  finishTask_resolves_next_status envOK (stWith runningTimer) remOne roomB203 none
    "L1" alice rfl rfl rfl rfl rfl rfl

/-! ## Claim C6 -/

/-- Counterexample to C6: pausing the concrete running timer (start 3,
accumulated 5) at wall-clock 3003 should, per the claim, add the
in-flight delta and report 5 + 3 = 8 seconds; `pauseTimer` consults no
clock at all and leaves the elapsed value at 5. -/
theorem pauseTimer_drops_inflight_delta :
    runningTimer.isRunning = true ∧
    (pauseTimer runningTimer).elapsedTime = 5 ∧
    runningTimer.elapsedTime + Int.fdiv (3003 - 3) 1000 = 8 ∧
    (pauseTimer runningTimer).elapsedTime ≠
      runningTimer.elapsedTime + Int.fdiv (3003 - 3) 1000 := by
  exact ⟨rfl, rfl, by decide, by decide⟩

/-- C6 amended: pause freezes the elapsed value exactly as accumulated by
past ticks — the in-flight delta since the captured start is discarded,
not added — clears the start time and leaves Running.  `pauseTask` is
guarded only by the presence of an active log id: with none it returns
silently changing nothing; and `pauseTimer` applied to a timer that is
not running (and has no start time) leaves the timer unchanged — no
InvalidState error exists anywhere. -/
theorem pause_freezes_elapsed (env : Env) (st : AppState) (rem : RemoteState) :
    (∀ logId, st.timer.currentLogId = some logId → env.pauseWorkLogOk = true →
      (pauseTask env st rem).1.timer.elapsedTime = st.timer.elapsedTime ∧
      (pauseTask env st rem).1.timer.isRunning = false ∧
      (pauseTask env st rem).1.timer.startTime = none ∧
      (pauseTask env st rem).2.1.workLogs
        = pauseWorkLogRepo logId st.timer.elapsedTime rem.workLogs) ∧
    (st.timer.currentLogId = none →
      pauseTask env st rem = (st, rem, .noActive)) ∧
    (∀ t : TimerState, t.isRunning = false → t.startTime = none →
      pauseTimer t = t) := by
  refine ⟨?_, ?_, ?_⟩
  · intro logId hLog hOk
    have hOk' : ¬env.pauseWorkLogOk = false := by simp [hOk]
    refine ⟨?_, ?_, ?_, ?_⟩ <;>
      simp [pauseTask, hLog, hOk', addNotification, pauseTimer]
  · intro h
    simp [pauseTask, h]
  · intro t h1 h2
    cases t
    simp_all [pauseTimer]

/-- A paused timer with 125 accumulated seconds on log L1. -/
def pausedTimer : TimerState :=
  { isRunning := false
    startTime := none
    elapsedTime := 125
    currentLogId := some "L1"
    roomNumber := some "B203"
    taskType := some .Cleaning }

/-- Witness for C6 (amended) at concrete running, idle and paused timers. -/
theorem pause_freezes_elapsed_witness :
    ((pauseTask envOK (stWith runningTimer) remOne).1.timer.elapsedTime
        = (stWith runningTimer).timer.elapsedTime ∧
      (pauseTask envOK (stWith runningTimer) remOne).1.timer.isRunning = false ∧
      (pauseTask envOK (stWith runningTimer) remOne).1.timer.startTime = none ∧
      (pauseTask envOK (stWith runningTimer) remOne).2.1.workLogs
        = pauseWorkLogRepo "L1" (stWith runningTimer).timer.elapsedTime remOne.workLogs) ∧
    pauseTask envOK (stWith idleTimer) remOne = (stWith idleTimer, remOne, .noActive) ∧
    pauseTimer pausedTimer = pausedTimer :=
  ⟨(pause_freezes_elapsed envOK (stWith runningTimer) remOne).1 "L1" rfl rfl,
   (pause_freezes_elapsed envOK (stWith idleTimer) remOne).2.1 rfl,
   (pause_freezes_elapsed envOK (stWith idleTimer) remOne).2.2 pausedTimer rfl rfl⟩

/-! ## Claim C7 -/

/-- `finishTask` with no active log id is a complete no-op returning the
no-active marker. -/
theorem finishTask_no_log (env : Env) (st : AppState) (rem : RemoteState)
    (room : Room) (ns : Option RoomStatus) (h : st.timer.currentLogId = none) :
    finishTask env st rem room ns = (st, rem, .noActive) := by
  simp [finishTask, h]

/-- C7: after one successful `finishTask`, a second `finishTask` without
an intervening `startTask` hits the no-active-task guard: it returns the
entire state unchanged — no audit entry, no status change, no
notification, no duplicate effect of any kind. -/
theorem finishTask_twice_second_noop (env env2 : Env) (st : AppState) (rem : RemoteState)
    (room room2 : Room) (ns ns2 : Option RoomStatus) (logId : String) (user : Profile)
    (hLog : st.timer.currentLogId = some logId) (hUser : st.currentUser = some user)
    (hOk : env.finishWorkLogOk = true) :
    (finishTask env st rem room ns).2.2 = .completed ∧
    finishTask env2 (finishTask env st rem room ns).1
      (finishTask env st rem room ns).2.1 room2 ns2
      = ((finishTask env st rem room ns).1,
         (finishTask env st rem room ns).2.1, .noActive) := by
  have hOk' : ¬env.finishWorkLogOk = false := by simp [hOk]
  have hTimer : (finishTask env st rem room ns).1.timer = resetTimer := by
    by_cases h : resolveNextStatus ns st.timer.taskType room.status = room.status <;>
      simp [finishTask, hLog, hUser, hOk', h, addNotification]
  constructor
  · by_cases h : resolveNextStatus ns st.timer.taskType room.status = room.status <;>
      simp [finishTask, hLog, hUser, hOk', h]
  · exact finishTask_no_log env2 _ _ room2 ns2 (by rw [hTimer]; rfl)

/-- Witness for C7: finishing the running Cleaning task and calling
finishTask again at once. -/
theorem finishTask_twice_second_noop_witness :
    (finishTask envOK (stWith runningTimer) remOne roomB203 none).2.2 = .completed ∧
    finishTask envOK (finishTask envOK (stWith runningTimer) remOne roomB203 none).1
      (finishTask envOK (stWith runningTimer) remOne roomB203 none).2.1 roomB203 none
      = ((finishTask envOK (stWith runningTimer) remOne roomB203 none).1,
         (finishTask envOK (stWith runningTimer) remOne roomB203 none).2.1,
         .noActive) :=
  finishTask_twice_second_noop envOK envOK (stWith runningTimer) remOne roomB203
    roomB203 none none "L1" alice rfl rfl rfl

/-! ## Claim C9 -/

/-- Counterexample to C9: a fully successful `finishTask` on a room whose
`assigned_to` is staff "1" resets the timer to Idle but leaves
`assigned_to` set to "1" both locally and remotely — the field is never
cleared. -/
theorem finishTask_keeps_assigned_to :
    (finishTask envOK (stWith runningTimer) remOne roomB203 none).2.2 = .completed ∧
    (finishTask envOK (stWith runningTimer) remOne roomB203 none).1.timer = resetTimer ∧
    assignedToList (finishTask envOK (stWith runningTimer) remOne roomB203 none).1.rooms
      = [some "1"] ∧
    assignedToList
      (finishTask envOK (stWith runningTimer) remOne roomB203 none).2.1.rooms
      = [some "1"] := by
  exact ⟨rfl, rfl, rfl, rfl⟩

/-- C9 amended: a successful `finishTask` resets the TaskTimer to Idle,
but does not clear the room's `assigned_to`: no code path writes that
field, so both the local registry and the repository keep every room's
`assigned_to` value unchanged. -/
theorem finishTask_resets_timer_not_assigned (env : Env) (st : AppState)
    (rem : RemoteState) (room : Room) (ns : Option RoomStatus) (logId : String)
    (user : Profile) (hLog : st.timer.currentLogId = some logId)
    (hUser : st.currentUser = some user) (hOk : env.finishWorkLogOk = true) :
    (finishTask env st rem room ns).2.2 = .completed ∧
    (finishTask env st rem room ns).1.timer = resetTimer ∧
    assignedToList (finishTask env st rem room ns).1.rooms
      = assignedToList st.rooms ∧
    assignedToList (finishTask env st rem room ns).2.1.rooms
      = assignedToList rem.rooms := by
  have hOk' : ¬env.finishWorkLogOk = false := by simp [hOk]
  by_cases h : resolveNextStatus ns st.timer.taskType room.status = room.status <;>
    simp [finishTask, hLog, hUser, hOk', h, addNotification,
          changeRoomStatus_assignedTo_local, changeRoomStatus_assignedTo_remote]

/-- Witness for C9 (amended) at the concrete run. -/
theorem finishTask_resets_timer_not_assigned_witness :
    (finishTask envOK (stWith runningTimer) remOne roomB203 none).2.2 = .completed ∧
    (finishTask envOK (stWith runningTimer) remOne roomB203 none).1.timer = resetTimer ∧
    assignedToList (finishTask envOK (stWith runningTimer) remOne roomB203 none).1.rooms
      = assignedToList (stWith runningTimer).rooms ∧
    assignedToList
      (finishTask envOK (stWith runningTimer) remOne roomB203 none).2.1.rooms
      = assignedToList remOne.rooms :=
  finishTask_resets_timer_not_assigned envOK (stWith runningTimer) remOne roomB203
    none "L1" alice rfl rfl rfl
